import Mathlib

set_option maxHeartbeats 1000000

namespace tagstore

/-- Model of Go error values as they are distinguished by `store.go`:
the two sentinel errors compared by identity (`ErrTagNotFound`,
`backenderrors.ErrBlobNotFound`), collaborator errors for which
`os.IsExist` respectively `os.IsNotExist` hold, errors produced by
`fmt.Errorf` (never identical to a sentinel, and the `os` predicates are
false on them since no `%w` wrapping is used), and any other error. -/
inductive GoErr where
  | tagNotFound : GoErr
  | blobNotFound : GoErr
  | existErr : String → GoErr
  | notExistErr : String → GoErr
  | errorf : String → GoErr
  | other : String → GoErr
deriving DecidableEq

/-- The sentinel `ErrTagNotFound = errors.New("tag not found")` of `store.go`. -/
def ErrTagNotFound : GoErr := GoErr.tagNotFound

/-- Result of `os.IsExist` on a modelled error. -/
def GoErr.isExist : GoErr → Bool
  | .existErr _ => true
  | _ => false

/-- Result of `os.IsNotExist` on a modelled error. -/
def GoErr.isNotExist : GoErr → Bool
  | .notExistErr _ => true
  | _ => false

/-- The `%s` rendering of a modelled error, used by `fmt.Errorf` wrapping. -/
def errString : GoErr → String
  | .tagNotFound => "tag not found"
  | .blobNotFound => "blob not found"
  | .existErr m => m
  | .notExistErr m => m
  | .errorf m => m
  | .other m => m

/-- Modelled from the spec: `core.Digest` (the `core` package is not under
`src/`). A digest is a fixed-algorithm (SHA-256) content hash with a
canonical string encoding `algo:hex`. -/
structure Digest where
  algo : String
  hex : String
deriving DecidableEq

/-- The Go zero value `core.Digest{}` returned alongside every error. -/
def Digest.zero : Digest := Digest.mk "" ""

/-- Modelled from the spec: `Digest.String()`, the canonical `algo:hex`
string encoding. -/
def Digest.toString (d : Digest) : String := d.algo ++ ":" ++ d.hex

/-- Character list of the canonical prefix `sha256:` of an encoded digest. -/
def sha256Header : List Char := ['s', 'h', 'a', '2', '5', '6', ':']

/-- Test for a lowercase hexadecimal character. -/
def isHexChar (c : Char) : Bool :=
  (('0'.toNat ≤ c.toNat) && (c.toNat ≤ '9'.toNat)) ||
  (('a'.toNat ≤ c.toNat) && (c.toNat ≤ 'f'.toNat))

/-- Modelled from the spec: `core.ParseSHA256Digest` (the `core` package is
not under `src/`). Accepts exactly the strings `sha256:` followed by 64
lowercase hexadecimal characters, and inverts the canonical encoding. -/
def parseSHA256Digest (s : String) : Except GoErr Digest :=
  if s.data.take 7 = sha256Header then
    if (s.data.drop 7).length == 64 && (s.data.drop 7).all isHexChar then
      Except.ok (Digest.mk "sha256" (String.mk (s.data.drop 7)))
    else
      Except.error (GoErr.other "invalid sha256 digest hex")
  else
    Except.error (GoErr.other "invalid digest format")

/-- Well-formedness of a digest value: exactly the digests that
`parseSHA256Digest` can produce. -/
def ValidDigest (d : Digest) : Bool :=
  d.algo == "sha256" && d.hex.data.length == 64 && d.hex.data.all isHexChar

/-- A write-back task as produced by `writeback.NewTaskWithDelay(tag, tag,
delay)`: source key, destination key and delay. -/
structure Task where
  source : String
  dest : String
  delay : Nat
deriving DecidableEq

/-- Mirrors `writeback.NewTaskWithDelay`. -/
def NewTaskWithDelay (source dest : String) (delay : Nat) : Task :=
  Task.mk source dest delay

/-- Modelled from the spec: the observable state of the three collaborators
of `tagStore` (spec section 6), together with fault-injection fields that
let a collaborator call fail with an arbitrary error, as the claims
quantify over collaborator failures. `files` maps a cache file name to its
content, `persist` holds the persist metadata flag, `tasks` is the
write-back scheduler queue, `backend` maps a tag to its remote content
(`none` meaning blob-not-found). Each `...Err` field, when set, makes the
corresponding collaborator call return that error. -/
structure WState where
  files : String → Option String
  persist : String → Bool
  tasks : List Task
  backend : String → Option String
  createErr : String → Option GoErr
  metaErr : String → Option GoErr
  readerErr : String → Option GoErr
  copyErr : String → Option GoErr
  clientErr : String → Option GoErr
  downloadErr : String → Option GoErr
  addErr : Option GoErr

/-- Modelled from the spec: `FileStore.CreateCacheFile(name, r)`. On
success it stores the content; if an entry already exists it reports a
distinguishable already-exists error and leaves the content unchanged. -/
def createCacheFile (w : WState) (name content : String) : Option GoErr × WState :=
  match w.createErr name with
  | some e => (some e, w)
  | none =>
    match w.files name with
    | some _ => (some (GoErr.existErr "file exists"), w)
    | none =>
      (none, { w with files := fun n => if n = name then some content else w.files n })

/-- Modelled from the spec: `FileStore.SetCacheFileMetadata(name,
metadata.NewPersist(true))`; returns whether the flag changed. -/
def setCacheFileMetadata (w : WState) (name : String) : Except GoErr Bool × WState :=
  match w.metaErr name with
  | some e => (Except.error e, w)
  | none =>
    (Except.ok (!(w.persist name)),
      { w with persist := fun n => if n = name then true else w.persist n })

/-- Modelled from the spec: `FileStore.GetCacheFileReader(name)` followed by
`io.Copy` of the reader. The outer `Except` is the open error (reporting a
distinguishable not-found when the entry is absent); the inner one is the
copy result, carrying the full content on success. -/
def getCacheFileReader (w : WState) (name : String) : Except GoErr (Except GoErr String) :=
  match w.readerErr name with
  | some e => Except.error e
  | none =>
    match w.files name with
    | none => Except.error (GoErr.notExistErr "file does not exist")
    | some c =>
      match w.copyErr name with
      | some e => Except.ok (Except.error e)
      | none => Except.ok (Except.ok c)

/-- Modelled from the spec: `backends.GetClient(tag)`, client selection. -/
def getClient (w : WState) (tag : String) : Except GoErr Unit :=
  match w.clientErr tag with
  | some e => Except.error e
  | none => Except.ok ()

/-- Modelled from the spec: `backendClient.Download(tag, buffer)`; reports
the sentinel blob-not-found error when the backend has no content. -/
def download (w : WState) (tag : String) : Except GoErr String :=
  match w.downloadErr tag with
  | some e => Except.error e
  | none =>
    match w.backend tag with
    | none => Except.error GoErr.blobNotFound
    | some c => Except.ok c

/-- Modelled from the spec: `writeBackManager.Add(task)`, appending the
task to the scheduler queue on success. -/
def addTask (w : WState) (t : Task) : Option GoErr × WState :=
  match w.addErr with
  | some e => (some e, w)
  | none => (none, { w with tasks := w.tasks ++ [t] })

/-- Embedding of `tagStore.writeTagToDisk` (store.go:96-102): create the
cache file holding the digest's canonical encoding; an already-exists
error is swallowed (treated as success), any other error is returned. -/
def writeTagToDisk (w : WState) (tag : String) (d : Digest) : Option GoErr × WState :=
  match createCacheFile w tag (Digest.toString d) with
  | (some e, w1) => if e.isExist then (none, w1) else (some e, w1)
  | (none, w1) => (none, w1)

/-- Embedding of `tagStore.Put` (store.go:68-80): write the tag to disk,
set persist metadata, enqueue the write-back task; each failure is wrapped
with its step's context and ends the call. -/
def Put (w : WState) (tag : String) (d : Digest) (writeBackDelay : Nat) :
    Option GoErr × WState :=
  match writeTagToDisk w tag d with
  | (some e, w1) => (some (GoErr.errorf ("write tag to disk: " ++ errString e)), w1)
  | (none, w1) =>
    match setCacheFileMetadata w1 tag with
    | (Except.error e, w2) => (some (GoErr.errorf ("set persist metadata: " ++ errString e)), w2)
    | (Except.ok _, w2) =>
      match addTask w2 (NewTaskWithDelay tag tag writeBackDelay) with
      | (some e, w3) => (some (GoErr.errorf ("add write-back task: " ++ errString e)), w3)
      | (none, w3) => (none, w3)

/-- Embedding of `tagStore.resolveFromDisk` (store.go:104-122): open the
cache file (absence becomes `ErrTagNotFound`, other open errors are
wrapped), copy its content, parse it as a digest. Reads do not change
state. -/
def resolveFromDisk (w : WState) (tag : String) : Digest × Option GoErr :=
  match getCacheFileReader w tag with
  | Except.error e =>
    if e.isNotExist then (Digest.zero, some GoErr.tagNotFound)
    else (Digest.zero, some (GoErr.errorf ("fs: " ++ errString e)))
  | Except.ok copyRes =>
    match copyRes with
    | Except.error e => (Digest.zero, some (GoErr.errorf ("copy from fs: " ++ errString e)))
    | Except.ok content =>
      match parseSHA256Digest content with
      | Except.error e => (Digest.zero, some (GoErr.errorf ("parse fs digest: " ++ errString e)))
      | Except.ok d => (d, none)

/-- Embedding of `tagStore.resolveFromBackend` (store.go:124-144): select a
client, download the content (the blob-not-found sentinel becomes
`ErrTagNotFound`), parse it, then write it through to disk best-effort
(a write error is only logged). -/
def resolveFromBackend (w : WState) (tag : String) : (Digest × Option GoErr) × WState :=
  match getClient w tag with
  | Except.error e =>
    ((Digest.zero, some (GoErr.errorf ("backend manager: " ++ errString e))), w)
  | Except.ok _ =>
    match download w tag with
    | Except.error e =>
      if e = GoErr.blobNotFound then ((Digest.zero, some GoErr.tagNotFound), w)
      else ((Digest.zero, some (GoErr.errorf ("backend client: " ++ errString e))), w)
    | Except.ok content =>
      match parseSHA256Digest content with
      | Except.error e =>
        ((Digest.zero, some (GoErr.errorf ("parse backend digest: " ++ errString e))), w)
      | Except.ok d =>
        match writeTagToDisk w tag d with
        | (_, w1) => ((d, none), w1)

/-- Embedding of `tagStore.Get` (store.go:82-94), the two-iteration loop
over `resolveFromDisk` then `resolveFromBackend` unrolled: a resolver
result whose error is identical to `ErrTagNotFound` falls through to the
next resolver, any other result (success or failure) breaks the loop; the
last resolver's result is returned even when it is `ErrTagNotFound`. -/
def Get (w : WState) (tag : String) : (Digest × Option GoErr) × WState :=
  match resolveFromDisk w tag with
  | (d, e) =>
    if e = some GoErr.tagNotFound then resolveFromBackend w tag
    else ((d, e), w)

/-- State identical to `w` except for the backend-tier collaborator
behavior; used to express that a result did not consult the backend tier. -/
def withBackendView (w : WState) (b : String → Option String)
    (ce de : String → Option GoErr) : WState :=
  { w with backend := b, clientErr := ce, downloadErr := de }

/-- Sixty-four repetitions of the character a, a well-formed hex body. -/
def hexA : String := String.mk (List.replicate 64 'a')

/-- Sixty-four repetitions of the character b, a well-formed hex body. -/
def hexB : String := String.mk (List.replicate 64 'b')

/-- A concrete valid digest. -/
def dA : Digest := Digest.mk "sha256" hexA

/-- A second concrete valid digest, different from `dA`. -/
def dB : Digest := Digest.mk "sha256" hexB

/-- Collaborator state with empty cache, empty backend, empty task queue
and no injected faults: every collaborator is healthy. -/
def wEmpty : WState :=
  WState.mk (fun _ => none) (fun _ => false) [] (fun _ => none)
    (fun _ => none) (fun _ => none) (fun _ => none) (fun _ => none)
    (fun _ => none) (fun _ => none) none

/-- Healthy collaborators, with the cache already holding the encoding of
`dB` under the tag t. -/
def wPre : WState :=
  { wEmpty with files := fun n => if n = "t" then some (Digest.toString dB) else none }

/-- Healthy collaborators, with the cache holding unparseable content
under the tag t. -/
def wBad : WState :=
  { wEmpty with files := fun n => if n = "t" then some "garbage" else none }

/-- Healthy collaborators except that setting metadata on the tag t fails. -/
def wMetaErr : WState :=
  { wEmpty with metaErr := fun n => if n = "t" then some (GoErr.other "disk full") else none }

/-- Healthy collaborators except that every task submission fails. -/
def wAddErr : WState :=
  { wEmpty with addErr := some (GoErr.other "queue full") }

/-- Healthy collaborators except that client selection for the tag t fails. -/
def wClientErr : WState :=
  { wEmpty with clientErr := fun n => if n = "t" then some (GoErr.other "no client") else none }

/-- Healthy collaborators, empty cache, with the backend holding the
encoding of `dA` under the tag t. -/
def wBackend : WState :=
  { wEmpty with backend := fun n => if n = "t" then some (Digest.toString dA) else none }

/-- Round-trip: a well-formed digest's canonical encoding parses back to
the same digest. -/
theorem parse_toString (d : Digest) (h : ValidDigest d = true) :
    parseSHA256Digest (Digest.toString d) = Except.ok d := by
  obtain ⟨algo, hex⟩ := d
  simp [ValidDigest] at h
  obtain ⟨⟨ha, hlen⟩, hall⟩ := h
  subst ha
  have hdata : (Digest.toString (Digest.mk "sha256" hex)).data
      = 's' :: 'h' :: 'a' :: '2' :: '5' :: '6' :: ':' :: hex.data := rfl
  simp [parseSHA256Digest, hdata, sha256Header, hlen, hall]
  exact hall

/-- Every digest the parser produces is well-formed. -/
theorem parse_valid (s : String) (d : Digest)
    (h : parseSHA256Digest s = Except.ok d) : ValidDigest d = true := by
  unfold parseSHA256Digest at h
  split at h
  · split at h
    · cases h
      rename_i hcond
      simp at hcond
      simp [ValidDigest, hcond.1, hcond.2]
      exact hcond.2
    · cases h
  · cases h

/-- Computation of `Put` when the tag has no cache entry and the
collaborators it touches are healthy: it reports success, stores the
digest's encoding, sets the persist flag, and appends one task. -/
theorem Put_fresh (w : WState) (t : String) (d : Digest) (delay : Nat)
    (hce : w.createErr t = none) (hme : w.metaErr t = none) (hae : w.addErr = none)
    (hf : w.files t = none) :
    Put w t d delay =
      (none,
        { w with
            files := fun n => if n = t then some (Digest.toString d) else w.files n,
            persist := fun n => if n = t then true else w.persist n,
            tasks := w.tasks ++ [NewTaskWithDelay t t delay] }) := by
  simp [Put, writeTagToDisk, createCacheFile, hce, hf, setCacheFileMetadata, hme,
        addTask, hae]

/-- Computation of `Put` when the tag already has a cache entry (with any
content) and the collaborators it touches are healthy: the already-exists
error is treated as success, the entry's content is left unchanged without
being compared to the supplied digest, the persist flag is set, and one
task is appended. -/
theorem Put_exists (w : WState) (t c : String) (d : Digest) (delay : Nat)
    (hce : w.createErr t = none) (hme : w.metaErr t = none) (hae : w.addErr = none)
    (hf : w.files t = some c) :
    Put w t d delay =
      (none,
        { w with
            persist := fun n => if n = t then true else w.persist n,
            tasks := w.tasks ++ [NewTaskWithDelay t t delay] }) := by
  simp [Put, writeTagToDisk, createCacheFile, hce, hf, GoErr.isExist,
        setCacheFileMetadata, hme, addTask, hae]

/-- Computation of `resolveFromDisk` on a healthy cache holding a valid
digest's encoding under the tag. -/
theorem resolveFromDisk_hit (w : WState) (t : String) (d : Digest)
    (hr : w.readerErr t = none) (hcp : w.copyErr t = none)
    (hf : w.files t = some (Digest.toString d)) (hv : ValidDigest d = true) :
    resolveFromDisk w t = (d, none) := by
  simp [resolveFromDisk, getCacheFileReader, hr, hf, hcp, parse_toString d hv]

/-- Computation of `resolveFromDisk` when the cache reports the entry
absent: the not-exist open error becomes the `ErrTagNotFound` sentinel. -/
theorem resolveFromDisk_miss (w : WState) (t : String)
    (hr : w.readerErr t = none) (hf : w.files t = none) :
    resolveFromDisk w t = (Digest.zero, some GoErr.tagNotFound) := by
  simp [resolveFromDisk, getCacheFileReader, hr, hf, GoErr.isNotExist]

/-- C2: `Get(t)` tries the local cache tier first and the backend tier
second. A first-tier result whose error is not `ErrTagNotFound` (success
or any other failure) is returned as-is with the state unchanged, and the
backend tier is not consulted: the result is invariant under any change of
the backend collaborators. `ErrTagNotFound` from the first tier falls
through, making `Get` return exactly the backend tier's result. -/
theorem get_resolution_order (w : WState) (t : String) (d : Digest) (e : Option GoErr)
    (hdisk : resolveFromDisk w t = (d, e)) :
    (e ≠ some ErrTagNotFound → Get w t = ((d, e), w) ∧
      ∀ b ce de, Get (withBackendView w b ce de) t = ((d, e), withBackendView w b ce de)) ∧
    (e = some ErrTagNotFound → Get w t = resolveFromBackend w t) := by
  simp only [ErrTagNotFound]
  refine ⟨fun hne => ⟨?_, fun b ce de => ?_⟩, fun heq => ?_⟩
  · simp [Get, hdisk, hne]
  · have hdisk' : resolveFromDisk (withBackendView w b ce de) t = (d, e) := by
      rw [show resolveFromDisk (withBackendView w b ce de) t = resolveFromDisk w t from rfl]
      exact hdisk
    simp [Get, hdisk', hne]
  · simp [Get, hdisk, heq]

/-- Witness for C2 at a concrete input: with an empty cache the first tier
reports `ErrTagNotFound` and `Get` returns the backend tier's result. -/
theorem get_resolution_order_witness :
    Get wEmpty "t" = resolveFromBackend wEmpty "t" :=
  (get_resolution_order wEmpty "t" Digest.zero (some GoErr.tagNotFound) rfl).2 rfl

/-- C3: when the local cache reports the entry absent and the backend
reports blob-not-found, `Get` returns the zero digest together with the
`ErrTagNotFound` sentinel (not a wrapped failure). -/
theorem get_true_not_found (w : WState) (t : String)
    (hr : w.readerErr t = none) (hf : w.files t = none)
    (hc : w.clientErr t = none) (hd : w.downloadErr t = none)
    (hb : w.backend t = none) :
    Get w t = ((Digest.zero, some ErrTagNotFound), w) := by
  simp [Get, resolveFromDisk_miss w t hr hf, resolveFromBackend, getClient, hc,
        download, hd, hb, ErrTagNotFound]

/-- Witness for C3 at a concrete input. -/
theorem get_true_not_found_witness :
    Get wEmpty "missing" = ((Digest.zero, some ErrTagNotFound), wEmpty) :=
  get_true_not_found wEmpty "missing" rfl rfl rfl rfl rfl

/-- C4: a local cache entry whose content does not parse as a digest makes
`Get` fail with the wrapped parse error; the error is not the
`ErrTagNotFound` sentinel, the state is unchanged, and the backend tier is
not consulted (the result is invariant under any change of the backend
collaborators). -/
theorem get_malformed_local_entry (w : WState) (t c : String) (pe : GoErr)
    (hr : w.readerErr t = none) (hf : w.files t = some c) (hcp : w.copyErr t = none)
    (hp : parseSHA256Digest c = Except.error pe) :
    Get w t = ((Digest.zero, some (GoErr.errorf ("parse fs digest: " ++ errString pe))), w) ∧
    (Get w t).1.2 ≠ some ErrTagNotFound ∧
    ∀ b ce de, Get (withBackendView w b ce de) t
      = ((Digest.zero, some (GoErr.errorf ("parse fs digest: " ++ errString pe))),
         withBackendView w b ce de) := by
  have hd : resolveFromDisk w t
      = (Digest.zero, some (GoErr.errorf ("parse fs digest: " ++ errString pe))) := by
    simp [resolveFromDisk, getCacheFileReader, hr, hf, hcp, hp]
  have hmain : Get w t
      = ((Digest.zero, some (GoErr.errorf ("parse fs digest: " ++ errString pe))), w) := by
    simp [Get, hd]
  refine ⟨hmain, by simp [hmain, ErrTagNotFound], fun b ce de => ?_⟩
  have hd' : resolveFromDisk (withBackendView w b ce de) t
      = (Digest.zero, some (GoErr.errorf ("parse fs digest: " ++ errString pe))) := by
    rw [show resolveFromDisk (withBackendView w b ce de) t = resolveFromDisk w t from rfl]
    exact hd
  simp [Get, hd']

/-- Witness for C4 at a concrete input: a cache entry containing the text
garbage produces the wrapped parse error. -/
theorem get_malformed_local_entry_witness :
    Get wBad "t" = ((Digest.zero,
      some (GoErr.errorf ("parse fs digest: "
        ++ errString (GoErr.other "invalid digest format")))), wBad) :=
  (get_malformed_local_entry wBad "t" "garbage" (GoErr.other "invalid digest format")
    rfl rfl rfl rfl).1

/-- C8: a client-selection failure for the tag, the local cache having
reported not-found, makes `Get` return the error wrapped with the backend
manager context; it is never converted into the `ErrTagNotFound`
sentinel. -/
theorem get_client_selection_failure (w : WState) (t : String) (e : GoErr)
    (hr : w.readerErr t = none) (hf : w.files t = none)
    (hcl : w.clientErr t = some e) :
    Get w t = ((Digest.zero, some (GoErr.errorf ("backend manager: " ++ errString e))), w) ∧
    (Get w t).1.2 ≠ some ErrTagNotFound := by
  have hmain : Get w t
      = ((Digest.zero, some (GoErr.errorf ("backend manager: " ++ errString e))), w) := by
    simp [Get, resolveFromDisk_miss w t hr hf, resolveFromBackend, getClient, hcl]
  exact ⟨hmain, by simp [hmain, ErrTagNotFound]⟩

/-- Witness for C8 at a concrete input. -/
theorem get_client_selection_failure_witness :
    Get wClientErr "t" = ((Digest.zero,
      some (GoErr.errorf ("backend manager: " ++ errString (GoErr.other "no client")))),
      wClientErr) :=
  (get_client_selection_failure wClientErr "t" (GoErr.other "no client") rfl rfl rfl).1

/-- C1 counterexample: with healthy collaborators and a pre-existing cache
entry holding the encoding of digest `dB` under the tag t, `Put` of the
different digest `dA` returns no error, yet the immediately following
`Get` returns `dB`, not `dA`. -/
theorem put_get_roundtrip_counterexample :
    (Put wPre "t" dA 30).1 = none ∧
    (Get (Put wPre "t" dA 30).2 "t").1 = (dB, none) ∧
    dB ≠ dA :=
  ⟨rfl, rfl, by decide⟩

/-- C1 (amended): for a valid digest, if the local cache entry for the
tag, when already present, holds exactly the digest's canonical encoding,
then `Put` with healthy collaborators returns no error and the
immediately following `Get` returns the digest with no error, resolved by
the disk tier alone, the write-back task being merely queued; and the
canonical encoding parses back to an equal digest. -/
theorem put_then_get_roundtrip (w : WState) (t : String) (d : Digest) (delay : Nat)
    (hv : ValidDigest d = true)
    (hfile : w.files t = none ∨ w.files t = some (Digest.toString d))
    (hce : w.createErr t = none) (hme : w.metaErr t = none)
    (hre : w.readerErr t = none) (hcpe : w.copyErr t = none)
    (hae : w.addErr = none) :
    (Put w t d delay).1 = none ∧
    (Get (Put w t d delay).2 t).1 = (d, none) ∧
    resolveFromDisk (Put w t d delay).2 t = (d, none) ∧
    parseSHA256Digest (Digest.toString d) = Except.ok d := by
  have hdisk : resolveFromDisk (Put w t d delay).2 t = (d, none) := by
    rcases hfile with hf | hf
    · rw [Put_fresh w t d delay hce hme hae hf]
      exact resolveFromDisk_hit _ t d hre hcpe (by simp) hv
    · rw [Put_exists w t (Digest.toString d) d delay hce hme hae hf]
      exact resolveFromDisk_hit _ t d hre hcpe hf hv
  have hput : (Put w t d delay).1 = none := by
    rcases hfile with hf | hf
    · rw [Put_fresh w t d delay hce hme hae hf]
    · rw [Put_exists w t (Digest.toString d) d delay hce hme hae hf]
  exact ⟨hput, by simp [Get, hdisk], hdisk, parse_toString d hv⟩

/-- Witness for the amended C1 at a concrete input: fresh healthy state,
tag t, digest `dA`. -/
theorem put_then_get_roundtrip_witness :
    (Put wEmpty "t" dA 30).1 = none ∧
    (Get (Put wEmpty "t" dA 30).2 "t").1 = (dA, none) ∧
    resolveFromDisk (Put wEmpty "t" dA 30).2 "t" = (dA, none) ∧
    parseSHA256Digest (Digest.toString dA) = Except.ok dA :=
  put_then_get_roundtrip wEmpty "t" dA 30 (by decide) (Or.inl rfl) rfl rfl rfl rfl rfl

/-- C5: `Put` is idempotent with respect to a pre-existing local entry.
First conjunct: whenever the create call reports already-exists (any
pre-existing content, never compared to the supplied digest), the local
write step succeeds and changes nothing. Remaining conjuncts: on a fresh
healthy state, two successive `Put`s of the same tag and digest both
return no error and leave exactly the one readable local entry holding the
digest's encoding. -/
theorem put_idempotent (w : WState) (t : String) (d : Digest) (delay1 delay2 : Nat)
    (hv : ValidDigest d = true)
    (hce : w.createErr t = none) (hme : w.metaErr t = none)
    (hre : w.readerErr t = none) (hcpe : w.copyErr t = none)
    (hae : w.addErr = none) (hf : w.files t = none) :
    (∀ w' c, w'.createErr t = none → w'.files t = some c →
      writeTagToDisk w' t d = (none, w')) ∧
    (Put w t d delay1).1 = none ∧
    (Put (Put w t d delay1).2 t d delay2).1 = none ∧
    (Put (Put w t d delay1).2 t d delay2).2.files t = some (Digest.toString d) ∧
    resolveFromDisk (Put (Put w t d delay1).2 t d delay2).2 t = (d, none) := by
  have hgen : ∀ w' c, w'.createErr t = none → w'.files t = some c →
      writeTagToDisk w' t d = (none, w') := by
    intro w' c h1 h2
    simp [writeTagToDisk, createCacheFile, h1, h2, GoErr.isExist]
  have h1 := Put_fresh w t d delay1 hce hme hae hf
  have h2 := Put_exists (Put w t d delay1).2 t (Digest.toString d) d delay2
    (by rw [h1]; exact hce) (by rw [h1]; exact hme) (by rw [h1]; exact hae)
    (by rw [h1]; simp)
  refine ⟨hgen, by rw [h1], by rw [h2], ?_, ?_⟩
  · rw [h2, h1]
    simp
  · refine resolveFromDisk_hit _ t d ?_ ?_ ?_ hv
    · rw [h2, h1]; exact hre
    · rw [h2, h1]; exact hcpe
    · rw [h2, h1]; simp

/-- Witness for C5 at a concrete input: fresh healthy state, tag t,
digest `dA`, two `Put`s. -/
theorem put_idempotent_witness :
    (Put wEmpty "t" dA 1).1 = none ∧
    (Put (Put wEmpty "t" dA 1).2 "t" dA 2).1 = none ∧
    (Put (Put wEmpty "t" dA 1).2 "t" dA 2).2.files "t" = some (Digest.toString dA) ∧
    resolveFromDisk (Put (Put wEmpty "t" dA 1).2 "t" dA 2).2 "t" = (dA, none) :=
  have h := put_idempotent wEmpty "t" dA 1 2 (by decide) rfl rfl rfl rfl rfl rfl
  ⟨h.2.1, h.2.2.1, h.2.2.2.1, h.2.2.2.2⟩

/-- C6: when the set-persist-metadata step fails, `Put` returns the
wrapped error and the write-back task queue is left unchanged (no task is
enqueued). -/
theorem put_meta_failure (w : WState) (t : String) (d : Digest) (delay : Nat) (e : GoErr)
    (hce : w.createErr t = none) (hme : w.metaErr t = some e) :
    (Put w t d delay).1 = some (GoErr.errorf ("set persist metadata: " ++ errString e)) ∧
    (Put w t d delay).2.tasks = w.tasks := by
  cases hwf : w.files t with
  | none =>
    constructor <;> simp [Put, writeTagToDisk, createCacheFile, hce, hwf,
      setCacheFileMetadata, hme]
  | some c =>
    constructor <;> simp [Put, writeTagToDisk, createCacheFile, hce, hwf,
      GoErr.isExist, setCacheFileMetadata, hme]

/-- Witness for C6 at a concrete input. -/
theorem put_meta_failure_witness :
    (Put wMetaErr "t" dA 30).1
      = some (GoErr.errorf ("set persist metadata: " ++ errString (GoErr.other "disk full"))) ∧
    (Put wMetaErr "t" dA 30).2.tasks = wMetaErr.tasks :=
  put_meta_failure wMetaErr "t" dA 30 (GoErr.other "disk full") rfl rfl

/-- C7: when submitting the write-back task fails, `Put` returns the
wrapped error while the already-performed cache write and persist update
are not rolled back: the entry still holds the digest's encoding, the
persist flag is still set, and the tag remains locally readable. -/
theorem put_enqueue_failure (w : WState) (t : String) (d : Digest) (delay : Nat) (e : GoErr)
    (hv : ValidDigest d = true)
    (hce : w.createErr t = none) (hme : w.metaErr t = none)
    (hre : w.readerErr t = none) (hcpe : w.copyErr t = none)
    (hf : w.files t = none) (hae : w.addErr = some e) :
    (Put w t d delay).1 = some (GoErr.errorf ("add write-back task: " ++ errString e)) ∧
    (Put w t d delay).2.files t = some (Digest.toString d) ∧
    (Put w t d delay).2.persist t = true ∧
    resolveFromDisk (Put w t d delay).2 t = (d, none) := by
  have hput : Put w t d delay =
      (some (GoErr.errorf ("add write-back task: " ++ errString e)),
        { w with
            files := fun n => if n = t then some (Digest.toString d) else w.files n,
            persist := fun n => if n = t then true else w.persist n }) := by
    simp [Put, writeTagToDisk, createCacheFile, hce, hf, setCacheFileMetadata, hme,
      addTask, hae]
  rw [hput]
  refine ⟨rfl, by simp, by simp, ?_⟩
  exact resolveFromDisk_hit _ t d hre hcpe (by simp) hv

/-- Witness for C7 at a concrete input. -/
theorem put_enqueue_failure_witness :
    (Put wAddErr "t" dA 30).1
      = some (GoErr.errorf ("add write-back task: " ++ errString (GoErr.other "queue full"))) ∧
    (Put wAddErr "t" dA 30).2.files "t" = some (Digest.toString dA) ∧
    (Put wAddErr "t" dA 30).2.persist "t" = true ∧
    resolveFromDisk (Put wAddErr "t" dA 30).2 "t" = (dA, none) :=
  put_enqueue_failure wAddErr "t" dA 30 (GoErr.other "queue full")
    (by decide) rfl rfl rfl rfl rfl rfl

/-- C9: on a local miss with a healthy backend holding parseable content,
`Get` returns the parsed digest with no error; when the cache create is
healthy the digest is written through so that a subsequent local-only read
returns it; and when the write-through fails (any non-already-exists
create error), `Get` still returns the digest with no error, the failure
being suppressed. -/
theorem get_backend_write_through (w : WState) (t c : String) (d : Digest)
    (hre : w.readerErr t = none) (hf : w.files t = none) (hcpe : w.copyErr t = none)
    (hcl : w.clientErr t = none) (hdl : w.downloadErr t = none)
    (hb : w.backend t = some c) (hp : parseSHA256Digest c = Except.ok d) :
    (Get w t).1 = (d, none) ∧
    (w.createErr t = none →
      (Get w t).2.files t = some (Digest.toString d) ∧
      resolveFromDisk (Get w t).2 t = (d, none)) ∧
    (∀ e, w.createErr t = some e → e.isExist = false →
      (Get w t).1 = (d, none) ∧ (Get w t).2.files t = none) := by
  have hGetEq : Get w t = resolveFromBackend w t := by
    simp [Get, resolveFromDisk_miss w t hre hf]
  refine ⟨?_, ?_, ?_⟩
  · rw [hGetEq]
    rcases hwt : writeTagToDisk w t d with ⟨e1, w1⟩
    simp [resolveFromBackend, getClient, hcl, download, hdl, hb, hp, hwt]
  · intro hc
    have hwt : writeTagToDisk w t d =
        (none, { w with
          files := fun n => if n = t then some (Digest.toString d) else w.files n }) := by
      simp [writeTagToDisk, createCacheFile, hc, hf]
    have hres : resolveFromBackend w t = ((d, none),
        { w with
          files := fun n => if n = t then some (Digest.toString d) else w.files n }) := by
      simp [resolveFromBackend, getClient, hcl, download, hdl, hb, hp, hwt]
    rw [hGetEq, hres]
    exact ⟨by simp, resolveFromDisk_hit _ t d hre hcpe (by simp) (parse_valid c d hp)⟩
  · intro e hc he
    have hwt : writeTagToDisk w t d = (some e, w) := by
      simp [writeTagToDisk, createCacheFile, hc, he]
    have hres : resolveFromBackend w t = ((d, none), w) := by
      simp [resolveFromBackend, getClient, hcl, download, hdl, hb, hp, hwt]
    rw [hGetEq, hres]
    exact ⟨rfl, hf⟩

/-- Witness for C9 at a concrete input: empty cache, backend holding the
encoding of `dA` under the tag t. -/
theorem get_backend_write_through_witness :
    (Get wBackend "t").1 = (dA, none) ∧
    (Get wBackend "t").2.files "t" = some (Digest.toString dA) ∧
    resolveFromDisk (Get wBackend "t").2 "t" = (dA, none) :=
  have h := get_backend_write_through wBackend "t" (Digest.toString dA) dA
    rfl rfl rfl rfl rfl rfl rfl
  ⟨h.1, (h.2.1 rfl).1, (h.2.1 rfl).2⟩

/-- C10: `Get` never sets persist metadata, never enqueues a write-back
task, and never touches the backend contents; the only state it may
mutate is the cache file of the requested tag, via the best-effort
write-through. -/
theorem get_frame (w : WState) (t : String) :
    (Get w t).2.persist = w.persist ∧
    (Get w t).2.tasks = w.tasks ∧
    (Get w t).2.backend = w.backend ∧
    ∀ u, u ≠ t → (Get w t).2.files u = w.files u := by
  have hwtd : ∀ d : Digest,
      (writeTagToDisk w t d).2.persist = w.persist ∧
      (writeTagToDisk w t d).2.tasks = w.tasks ∧
      (writeTagToDisk w t d).2.backend = w.backend ∧
      ∀ u, u ≠ t → (writeTagToDisk w t d).2.files u = w.files u := by
    intro d
    cases hce : w.createErr t with
    | some e =>
      by_cases he : e.isExist
      · simp [writeTagToDisk, createCacheFile, hce, he]
      · simp [writeTagToDisk, createCacheFile, hce, he]
    | none =>
      cases hwf : w.files t with
      | some c => simp [writeTagToDisk, createCacheFile, hce, hwf, GoErr.isExist]
      | none =>
        refine ⟨by simp [writeTagToDisk, createCacheFile, hce, hwf],
          by simp [writeTagToDisk, createCacheFile, hce, hwf],
          by simp [writeTagToDisk, createCacheFile, hce, hwf], fun u hu => ?_⟩
        simp [writeTagToDisk, createCacheFile, hce, hwf, hu]
  have hback :
      (resolveFromBackend w t).2.persist = w.persist ∧
      (resolveFromBackend w t).2.tasks = w.tasks ∧
      (resolveFromBackend w t).2.backend = w.backend ∧
      ∀ u, u ≠ t → (resolveFromBackend w t).2.files u = w.files u := by
    cases hgc : getClient w t with
    | error e => simp [resolveFromBackend, hgc]
    | ok v =>
      cases hdl : download w t with
      | error e =>
        by_cases hbnf : e = GoErr.blobNotFound
        · simp [resolveFromBackend, hgc, hdl, hbnf]
        · simp [resolveFromBackend, hgc, hdl, hbnf]
      | ok content =>
        cases hp : parseSHA256Digest content with
        | error e => simp [resolveFromBackend, hgc, hdl, hp]
        | ok d =>
          have h := hwtd d
          refine ⟨?_, ?_, ?_, fun u hu => ?_⟩
          · simp [resolveFromBackend, hgc, hdl, hp, h.1]
          · simp [resolveFromBackend, hgc, hdl, hp, h.2.1]
          · simp [resolveFromBackend, hgc, hdl, hp, h.2.2.1]
          · simp [resolveFromBackend, hgc, hdl, hp, h.2.2.2 u hu]
  have hget : Get w t = (if (resolveFromDisk w t).2 = some GoErr.tagNotFound
      then resolveFromBackend w t else (resolveFromDisk w t, w)) := rfl
  rw [hget]
  split
  · exact hback
  · exact ⟨rfl, rfl, rfl, fun u hu => rfl⟩

/-- Witness for C10 at a concrete input: the state reached by a `Get` on a
backend hit keeps the persist map, task queue and backend contents, and
the cache file of another tag. -/
theorem get_frame_witness :
    (Get wBackend "t").2.persist = wBackend.persist ∧
    (Get wBackend "t").2.tasks = wBackend.tasks ∧
    (Get wBackend "t").2.backend = wBackend.backend ∧
    (Get wBackend "t").2.files "u" = wBackend.files "u" :=
  have h := get_frame wBackend "t"
  ⟨h.1, h.2.1, h.2.2.1, h.2.2.2 "u" (by decide)⟩

end tagstore
